import Mathlib

/-!
Shallow embedding of the DUNE Vehicle Supervisor
(`src/Supervisors/Vehicle/Task.cpp`).

The supervisor is a periodic task owning the vehicle `VehicleState`.
Each message handler (`consume(...)`), the periodic `task()` body and the
helper routines (`changeMode`, `reset`, `entityError`, ...) are translated
into pure Lean functions of type `Task → ... → Task × List OutMsg`, where
the returned list records, in order, the messages dispatched on the bus.

Times (`Clock::get`, `Clock::getSinceEpoch`, message timestamps,
`m_switch_time`, `calibration_time`) are modelled as rationals; machine
integers are `Nat` with explicit masks where the C++ width matters
(`error_count` and `flags` are `uint8_t`, `control_loops` is `uint32_t`).
Logging calls (`war`, `err`, `debug`, `trace`, `inf`) and the
`m_err_timer` rate limiter, which only gates logging, are not modelled.
-/

namespace DuneVS

/-- IMC `CLoopsMask` bit for teleoperation (value from the generated IMC
bindings, outside this repository's sources; only its role as a bit of the
non-overridable mask matters here). -/
def CL_TELEOPERATION : Nat := 2

/-- IMC `CLoopsMask` no-override bit (value from the generated IMC
bindings, outside this repository's sources). -/
def CL_NO_OVERRIDE : Nat := 2 ^ 31

/-- IMC message id of the Teleoperation maneuver (`DUNE_IMC_TELEOPERATION`,
from the generated IMC bindings). -/
def DUNE_IMC_TELEOPERATION : Nat := 452

/-- `IMC::VehicleState::VFLG_MANEUVER_DONE`. -/
def VFLG_MANEUVER_DONE : Nat := 1

/-- `c_man_timeout`: maneuver request timeout in seconds. -/
def c_man_timeout : ℚ := 1

/-- `c_error_period`: printing errors period in seconds. -/
def c_error_period : ℚ := 2

/-- Operation modes of `IMC::VehicleState` (`VS_SERVICE`, `VS_CALIBRATION`,
`VS_ERROR`, `VS_MANEUVER`, `VS_EXTERNAL`). -/
inductive OpMode where
  | service
  | calibration
  | error
  | maneuver
  | external
deriving DecidableEq

/-- The `IMC::VehicleState` message `m_vs` owned by the supervisor. -/
structure VS where
  op_mode : OpMode
  maneuver_type : Nat
  maneuver_stime : ℚ
  maneuver_eta : Nat
  error_ents : String
  error_count : Nat
  flags : Nat
  last_error : String
  last_error_time : ℚ
  control_loops : Nat
deriving DecidableEq

/-- The supervisor task state: configuration arguments (`m_args`) together
with the mutable members `m_switch_time`, `m_in_safe_plan` and `m_vs`. -/
structure Task where
  calibration_time : ℚ
  safe_ents : List String
  switch_time : ℚ
  in_safe_plan : Bool
  vs : VS
deriving DecidableEq

/-- `modeIs`. -/
def modeIs (t : Task) (m : OpMode) : Prop := t.vs.op_mode = m

instance (t : Task) (m : OpMode) : Decidable (modeIs t m) := by
  unfold modeIs; infer_instance

/-- `nonOverridableLoops`: some teleoperation or no-override loop bit set. -/
def nonOverridableLoops (t : Task) : Prop :=
  t.vs.control_loops &&& (CL_TELEOPERATION ||| CL_NO_OVERRIDE) ≠ 0

instance (t : Task) : Decidable (nonOverridableLoops t) := by
  unfold nonOverridableLoops; infer_instance

/-- `teleoperationOn`: the current maneuver is a Teleoperation maneuver. -/
def teleoperationOn (t : Task) : Prop :=
  t.vs.maneuver_type = DUNE_IMC_TELEOPERATION

instance (t : Task) : Decidable (teleoperationOn t) := by
  unfold teleoperationOn; infer_instance

/-- `entityError`: true when the entities in error are relevant for the
current state.  `String::split(s, ",", ents)` (DUNE utility outside these
sources) is modelled from the spec as splitting on the comma separator. -/
def entityError (t : Task) : Bool :=
  if t.vs.error_count ≠ 0 then
    if t.safe_ents.length ≠ 0 ∧ t.in_safe_plan then
      let ents := t.vs.error_ents.splitOn ","
      ents.any (fun e => t.safe_ents.any (fun s => e == s))
    else
      true
  else
    false

/-- A maneuver payload carried inline in a `VehicleCommand` (its IMC
message id and name; `clone()` preserves both). -/
structure Maneuver where
  mid : Nat
  name : String
deriving DecidableEq

/-- Messages the supervisor dispatches on the bus, in dispatch order.
`dispatch` (DUNE `Tasks::Task::dispatch`, outside these sources) stamps the
message with the current wall-clock time, so the dispatched maneuver
payload carries the dispatch time. -/
inductive OutMsg where
  | stopManeuver
  | idleManeuver
  | calibration (duration : Nat)
  | vehicleState (vs : VS)
  | reply (success : Bool) (command : Nat) (request_id : Nat)
      (dest : Nat) (dest_ent : Nat) (info : String)
  | maneuver (mid : Nat) (ts : ℚ)
deriving DecidableEq

/-- `IMC::VehicleCommand::TypeEnum`. -/
inductive VCType where
  | request
  | success
  | failure
deriving DecidableEq

/-- `IMC::VehicleCommand::CommandEnum` numeric value (for the reply's
`command` field). -/
def VCCommand.toNat : Nat → Nat := id

/-- Relevant fields of an incoming `IMC::VehicleCommand`
(`command` is 0 = `VC_EXEC_MANEUVER`, 1 = `VC_STOP_MANEUVER`,
2 = `VC_CALIBRATE`). -/
structure VehicleCommand where
  vtype : VCType
  command : Nat
  request_id : Nat
  src : Nat
  src_ent : Nat
  maneuver : Option Maneuver
deriving DecidableEq

/-- `answer` / `requestOK` / `requestFailed`: build the reply routed back
to the requester. -/
def answer (cmd : VehicleCommand) (success : Bool) (desc : String) : OutMsg :=
  OutMsg.reply success cmd.command cmd.request_id cmd.src cmd.src_ent desc

/-- `changeMode(s, maneuver)`: the only place `op_mode` is written after
initialization.  `now` is the current wall-clock used by `dispatch` to
stamp the dispatched maneuver payload (whose timestamp `changeMode` then
reads back into `maneuver_stime`). -/
def changeMode (now : ℚ) (t : Task) (s : OpMode) (man : Option Maneuver) :
    Task × List OutMsg :=
  let t1 :=
    if t.vs.op_mode ≠ s then
      let s2 := if s = OpMode.service ∧ entityError t then OpMode.error else s
      let vs2 := { t.vs with op_mode := s2 }
      let vs3 :=
        if s2 ≠ OpMode.maneuver then
          { vs2 with
            maneuver_type := 0xFFFF
            maneuver_stime := -1
            maneuver_eta := 0xFFFF
            flags := vs2.flags &&& 254 }
        else vs2
      { t with vs := vs3 }
    else t
  let r2 : Task × List OutMsg :=
    if t1.vs.op_mode = OpMode.maneuver then
      match man with
      | some m =>
          let vs4 := { t1.vs with
            maneuver_stime := now
            maneuver_type := m.mid
            maneuver_eta := 0xFFFF
            last_error := ""
            last_error_time := -1
            flags := t1.vs.flags &&& 254 }
          ({ t1 with vs := vs4 }, [OutMsg.maneuver m.mid now])
      | none => (t1, [])
    else (t1, [])
  let t2 := { r2.1 with switch_time := -1 }
  (t2, r2.2 ++ [OutMsg.vehicleState t2.vs])

/-- `reset()`: dispatch `StopManeuver` when maneuvering, clear the safe
plan flag, zero the control loops and dispatch `IdleManeuver` (the
`m_err_timer` reset only affects logging and is not modelled). -/
def reset (t : Task) : Task × List OutMsg :=
  let out := if t.vs.op_mode = OpMode.maneuver then [OutMsg.stopManeuver] else []
  ({ t with in_safe_plan := false, vs := { t.vs with control_loops := 0 } },
   out ++ [OutMsg.idleManeuver])

/-- `onEnabledControlLoops`. -/
def onEnabledControlLoops (now : ℚ) (t : Task) : Task × List OutMsg :=
  match t.vs.op_mode with
  | OpMode.service => changeMode now t OpMode.external none
  | OpMode.error =>
      if nonOverridableLoops t then
        changeMode now t OpMode.external none
      else
        reset t
  | _ => (t, [])

/-- `onDisabledControlLoops`. -/
def onDisabledControlLoops (now : ℚ) (t : Task) : Task × List OutMsg :=
  if t.vs.op_mode = OpMode.external then
    changeMode now t OpMode.service none
  else
    (t, [])

/-- `consume(const IMC::ControlLoops*)`: `enable = true` is `CL_ENABLE`.
The `uint32_t` mask complement is taken within 32 bits. -/
def consumeControlLoops (now : ℚ) (t : Task) (enable : Bool) (mask : Nat) :
    Task × List OutMsg :=
  let was := t.vs.control_loops
  if enable then
    let t1 := { t with vs := { t.vs with control_loops := was ||| mask } }
    if was = 0 ∧ t1.vs.control_loops ≠ 0 then
      onEnabledControlLoops now t1
    else
      (t1, [])
  else
    let t1 := { t with vs :=
      { t.vs with control_loops := was &&& (0xFFFFFFFF ^^^ mask) } }
    if was ≠ 0 ∧ t1.vs.control_loops = 0 then
      onDisabledControlLoops now t1
    else
      (t1, [])

/-- `consume(const IMC::Abort*)`. -/
def consumeAbort (now : ℚ) (t : Task) : Task × List OutMsg :=
  let t1 := { t with vs :=
    { t.vs with last_error := "got abort request", last_error_time := now } }
  if t1.vs.op_mode ≠ OpMode.error then
    let r1 := reset t1
    if r1.1.vs.op_mode ≠ OpMode.external ∨ ¬ nonOverridableLoops r1.1 then
      let r2 := changeMode now r1.1 OpMode.service none
      (r2.1, r1.2 ++ r2.2)
    else
      r1
  else
    (t1, [])

/-- Relevant fields of an incoming `IMC::EntityMonitoringState`
(`ccount`, `ecount` are `uint8_t`). -/
structure EMS where
  ccount : Nat
  ecount : Nat
  cnames : String
  enames : String
  last_error : String
  last_error_time : ℚ
deriving DecidableEq

/-- First half of `consume(const IMC::EntityMonitoringState*)`: update
`error_count` (the sum `ccount + ecount` is stored into the `uint8_t`
field), `last_error`/`last_error_time` and `error_ents`. -/
def emsUpdateVS (vs : VS) (msg : EMS) : VS :=
  let vs1 := { vs with error_count := (msg.ccount + msg.ecount) % 256 }
  let vs2 :=
    if vs1.error_count ≠ 0 ∧ msg.last_error_time > vs1.last_error_time then
      { vs1 with last_error := msg.last_error,
                 last_error_time := msg.last_error_time }
    else vs1
  let ents1 := if msg.ccount ≠ 0 then msg.cnames else ""
  let ents2 :=
    if msg.ecount ≠ 0 then
      ents1 ++ (if msg.ccount ≠ 0 then "," else "") ++ msg.enames
    else ents1
  { vs2 with error_ents := ents2 }

/-- `consume(const IMC::EntityMonitoringState*)`: update the error fields
and react depending on the current mode. -/
def consumeEntityMonitoringState (now : ℚ) (t : Task) (msg : EMS) :
    Task × List OutMsg :=
  let t1 := { t with vs := emsUpdateVS t.vs msg }
  if t1.vs.op_mode = OpMode.error then
    if t1.vs.error_count = 0 then
      changeMode now t1 OpMode.service none
    else
      (t1, [])
  else if t1.vs.op_mode = OpMode.external ∨ t1.vs.op_mode = OpMode.maneuver then
    if entityError t1 ∧ ¬ nonOverridableLoops t1 ∧ ¬ teleoperationOn t1 then
      let r1 := reset t1
      let r2 := changeMode now r1.1 OpMode.error none
      (r2.1, r1.2 ++ r2.2)
    else
      (t1, [])
  else
    if entityError t1 ∧ ¬ t1.vs.op_mode = OpMode.calibration then
      let r1 := reset t1
      let r2 := changeMode now r1.1 OpMode.error none
      (r2.1, r1.2 ++ r2.2)
    else
      (t1, [])

/-- `IMC::ManeuverControlState::StateEnum`. -/
inductive MCSState where
  | executing
  | done
  | error
deriving DecidableEq

/-- Relevant fields of an incoming `IMC::ManeuverControlState`
(`fromSelf` models `getSource() == getSystemId()`, `ts` its timestamp). -/
structure MCS where
  fromSelf : Bool
  state : MCSState
  eta : Nat
  info : String
  ts : ℚ
deriving DecidableEq

/-- `IMC::Factory::getAbbrevFromId` (IMC factory, outside these sources):
only used to build the human-readable `last_error` text. -/
def getAbbrevFromId (mid : Nat) : String := toString mid

/-- `consume(const IMC::ManeuverControlState*)`. -/
def consumeManeuverControlState (now : ℚ) (t : Task) (msg : MCS) :
    Task × List OutMsg :=
  if ¬ msg.fromSelf then (t, [])
  else if t.vs.op_mode ≠ OpMode.maneuver then (t, [])
  else
    match msg.state with
    | MCSState.executing =>
        if msg.eta ≠ t.vs.maneuver_eta then
          let t1 := { t with vs := { t.vs with maneuver_eta := msg.eta } }
          (t1, [OutMsg.vehicleState t1.vs])
        else
          (t, [])
    | MCSState.done =>
        let t1 := { t with vs := { t.vs with
          maneuver_eta := 0
          flags := t.vs.flags ||| VFLG_MANEUVER_DONE } }
        ({ t1 with switch_time := now }, [OutMsg.vehicleState t1.vs])
    | MCSState.error =>
        let t1 := { t with vs := { t.vs with
          last_error := getAbbrevFromId t.vs.maneuver_type
            ++ " maneuver error: " ++ msg.info
          last_error_time := msg.ts } }
        let r1 := changeMode now t1 OpMode.service none
        let r2 := reset r1.1
        (r2.1, r1.2 ++ r2.2)

/-- `consume(const IMC::PlanControl*)`. -/
def consumePlanControl (t : Task) (isRequest isStart ignoreErrors : Bool) :
    Task × List OutMsg :=
  if isRequest ∧ isStart then
    ({ t with in_safe_plan := ignoreErrors }, [])
  else
    (t, [])

/-- `startCalibration`: the `double` calibration time is cast to the
`uint16_t` `Calibration.duration` field. -/
def startCalibration (now : ℚ) (t : Task) (cmd : VehicleCommand) :
    Task × List OutMsg :=
  if t.vs.op_mode = OpMode.external then
    (t, [answer cmd false "cannot calibrate: vehicle is in external mode"])
  else
    let r1 := if t.vs.op_mode = OpMode.maneuver then reset t else (t, [])
    let r2 := changeMode now r1.1 OpMode.calibration none
    let dur := (⌊r2.1.calibration_time⌋).toNat % 65536
    let t3 := { r2.1 with switch_time := now }
    (t3, r1.2 ++ r2.2 ++ [OutMsg.calibration dur,
                          answer cmd true "calibrating vehicle"])

/-- `startManeuver`. -/
def startManeuver (now : ℚ) (t : Task) (cmd : VehicleCommand) :
    Task × List OutMsg :=
  match cmd.maneuver with
  | none => (t, [answer cmd false "no maneuver specified"])
  | some m =>
      if t.vs.op_mode = OpMode.external then
        (t, [answer cmd false
          (m.name ++ " maneuver cannot be started in current mode")])
      else
        let r := changeMode now t OpMode.maneuver (some m)
        (r.1, [OutMsg.stopManeuver] ++ r.2
          ++ [answer cmd true (m.name ++ " maneuver started")])

/-- `stopManeuver`. -/
def stopManeuver (now : ℚ) (t : Task) (cmd : VehicleCommand) :
    Task × List OutMsg :=
  let r :=
    if t.vs.op_mode ≠ OpMode.error then
      let r1 := reset t
      if r1.1.vs.op_mode ≠ OpMode.external ∨ ¬ nonOverridableLoops r1.1 then
        let r2 := changeMode now r1.1 OpMode.service none
        (r2.1, r1.2 ++ r2.2)
      else
        r1
    else
      (t, ([] : List OutMsg))
  (r.1, r.2 ++ [answer cmd true "OK"])

/-- `consume(const IMC::VehicleCommand*)`: only `VC_REQUEST` messages are
handled (command values 0, 1, 2; others fall through the `switch`). -/
def consumeVehicleCommand (now : ℚ) (t : Task) (cmd : VehicleCommand) :
    Task × List OutMsg :=
  if cmd.vtype ≠ VCType.request then (t, [])
  else if cmd.command = 0 then startManeuver now t cmd
  else if cmd.command = 1 then stopManeuver now t cmd
  else if cmd.command = 2 then startCalibration now t cmd
  else (t, [])

/-- `task()`: the periodic tick. -/
def task (now : ℚ) (t : Task) : Task × List OutMsg :=
  let o0 := [OutMsg.vehicleState t.vs]
  if t.switch_time < 0 then (t, o0)
  else
    let delta := now - t.switch_time
    if t.vs.op_mode = OpMode.calibration ∧ delta > t.calibration_time then
      let r := changeMode now t OpMode.service none
      ({ r.1 with switch_time := -1 }, o0 ++ r.2)
    else if t.vs.op_mode = OpMode.maneuver ∧ delta > c_man_timeout then
      let r1 := reset t
      let r2 := changeMode now r1.1 OpMode.service none
      ({ r2.1 with switch_time := -1 }, o0 ++ r1.2 ++ r2.2)
    else
      (t, o0)

/-- `setInitialState` together with the constructor initializers
(`m_switch_time(-1.0)`, `m_in_safe_plan(false)`), parameterized by the
configuration arguments. -/
def setInitialState (cal : ℚ) (ents : List String) : Task :=
  { calibration_time := cal
    safe_ents := ents
    switch_time := -1
    in_safe_plan := false
    vs :=
      { op_mode := OpMode.service
        maneuver_type := 0xFFFF
        maneuver_stime := -1
        maneuver_eta := 0xFFFF
        error_ents := ""
        error_count := 0
        flags := 0
        last_error := ""
        last_error_time := -1
        control_loops := 0 } }

/-- One bus input to the supervisor: a message delivered to one of the
bound `consume` handlers, or a periodic tick.  `now` is the wall clock at
processing time. -/
inductive Input where
  | abort (now : ℚ)
  | controlLoops (now : ℚ) (enable : Bool) (mask : Nat)
  | entityMonitoringState (now : ℚ) (msg : EMS)
  | maneuverControlState (now : ℚ) (msg : MCS)
  | vehicleCommand (now : ℚ) (cmd : VehicleCommand)
  | planControl (isRequest isStart ignoreErrors : Bool)
  | tick (now : ℚ)
deriving DecidableEq

/-- Dispatch one input to its handler. -/
def step (t : Task) : Input → Task × List OutMsg
  | Input.abort now => consumeAbort now t
  | Input.controlLoops now e m => consumeControlLoops now t e m
  | Input.entityMonitoringState now msg => consumeEntityMonitoringState now t msg
  | Input.maneuverControlState now msg => consumeManeuverControlState now t msg
  | Input.vehicleCommand now cmd => consumeVehicleCommand now t cmd
  | Input.planControl a b c => consumePlanControl t a b c
  | Input.tick now => task now t

/-- Well-formed inputs: wall-clock values are non-negative (both
`Clock::get` and `Clock::getSinceEpoch` are non-negative). -/
def Input.wf : Input → Prop
  | Input.abort now => 0 ≤ now
  | Input.controlLoops now _ _ => 0 ≤ now
  | Input.entityMonitoringState now _ => 0 ≤ now
  | Input.maneuverControlState now _ => 0 ≤ now
  | Input.vehicleCommand now _ => 0 ≤ now
  | Input.planControl _ _ _ => True
  | Input.tick now => 0 ≤ now

/-- Fold one dispatched message into the record of the most recently
dispatched maneuver payload. -/
def updGhost (g : Option Nat) (o : OutMsg) : Option Nat :=
  match o with
  | OutMsg.maneuver mid _ => some mid
  | _ => g

/-- The id of the most recently dispatched maneuver payload after also
dispatching `outs`, starting from record `g`. -/
def lastManeuver (g : Option Nat) (outs : List OutMsg) : Option Nat :=
  outs.foldl updGhost g

/-- Supervisor state paired with the id of the most recently dispatched
maneuver payload (a history observation, not part of the task state). -/
structure GState where
  tk : Task
  ghost : Option Nat

/-- Process one input, tracking dispatched maneuver payloads. -/
def stepG (s : GState) (i : Input) : GState :=
  { tk := (step s.tk i).1, ghost := lastManeuver s.ghost (step s.tk i).2 }

/-- States reachable from the initial state by processing well-formed
inputs. -/
inductive Reach : GState → Prop where
  | init (cal : ℚ) (ents : List String) :
      Reach { tk := setInitialState cal ents, ghost := none }
  | next {s : GState} (i : Input) : Reach s → i.wf → Reach (stepG s i)

/-- The maneuver bookkeeping invariant: `maneuver_stime ≥ 0` exactly in
MANEUVER mode, and in MANEUVER mode `maneuver_type` is the id of the most
recently dispatched maneuver payload. -/
def InvT (t : Task) (g : Option Nat) : Prop :=
  (0 ≤ t.vs.maneuver_stime ↔ t.vs.op_mode = OpMode.maneuver) ∧
  (t.vs.op_mode = OpMode.maneuver → g = some t.vs.maneuver_type)

/-- `InvT` on a ghost-tracked state. -/
def ManInv (s : GState) : Prop := InvT s.tk s.ghost

/- Concrete states and messages used to instantiate the theorems. -/

/-- A Goto maneuver payload (IMC id 450). -/
def manGoto : Maneuver := { mid := 450, name := "Goto" }

/-- An `EXEC_MANEUVER` request carrying `manGoto`. -/
def cmdExec : VehicleCommand :=
  { vtype := VCType.request
    command := 0
    request_id := 7
    src := 3
    src_ent := 4
    maneuver := some manGoto }

/-- A `STOP_MANEUVER` request. -/
def cmdStop : VehicleCommand :=
  { vtype := VCType.request
    command := 1
    request_id := 8
    src := 3
    src_ent := 4
    maneuver := none }

/-- A `SUCCESS` reply (not a request). -/
def cmdReplySuccess : VehicleCommand :=
  { vtype := VCType.success
    command := 1
    request_id := 8
    src := 3
    src_ent := 4
    maneuver := none }

/-- Fresh supervisor with a 10 s calibration time and no safe entities. -/
def taskInit : Task := setInitialState 10 []

/-- Supervisor in ERROR mode with one entity in error. -/
def taskErrorMode : Task :=
  { taskInit with vs :=
    { taskInit.vs with op_mode := OpMode.error, error_count := 1 } }

/-- Supervisor in SERVICE with control loop bit 0 already enabled. -/
def taskLoops1 : Task :=
  { taskInit with vs := { taskInit.vs with control_loops := 1 } }

/-- Supervisor right after accepting `cmdExec` at time 5. -/
def taskAfterExec : Task := (consumeVehicleCommand 5 taskInit cmdExec).1

/-- Supervisor in MANEUVER with the switch timer armed at time 2. -/
def taskManeuverArmed : Task :=
  { taskInit with
    switch_time := 2
    vs := { taskInit.vs with op_mode := OpMode.maneuver, maneuver_stime := 2 } }

/-- Supervisor in MANEUVER with one entity in error. -/
def taskManeuverErr : Task :=
  { taskInit with vs :=
    { taskInit.vs with
      op_mode := OpMode.maneuver
      maneuver_stime := 2
      error_count := 1 } }

/-- Supervisor in CALIBRATION mode. -/
def taskCalib : Task :=
  { taskInit with vs := { taskInit.vs with op_mode := OpMode.calibration } }

/-- An `EntityMonitoringState` reporting one critical entity. -/
def emsIMU : EMS :=
  { ccount := 1
    ecount := 0
    cnames := "IMU"
    enames := ""
    last_error := "IMU failure"
    last_error_time := 3 }

/-- Supervisor in CALIBRATION, timer armed at 0, with an entity error. -/
def taskCalibErr : Task :=
  { taskInit with
    switch_time := 0
    vs := { taskInit.vs with op_mode := OpMode.calibration, error_count := 1 } }

/-!  Theorems.  -/

/-- C9: a `VehicleCommand` whose type is not `VC_REQUEST` (in particular
the supervisor's own SUCCESS and FAILURE replies) leaves the whole task
state unchanged and dispatches nothing. -/
theorem vehicleCommand_non_request_frame (now : ℚ) (t : Task)
    (cmd : VehicleCommand) (h : cmd.vtype ≠ VCType.request) :
    consumeVehicleCommand now t cmd = (t, []) := by
  simp [consumeVehicleCommand, h]

/-- Witness for C9: a SUCCESS reply echoed back to the supervisor is
ignored. -/
theorem vehicleCommand_non_request_frame_witness :
    cmdReplySuccess.vtype ≠ VCType.request ∧
      consumeVehicleCommand 5 taskInit cmdReplySuccess = (taskInit, []) :=
  ⟨by decide,
   vehicleCommand_non_request_frame 5 taskInit cmdReplySuccess (by decide)⟩

/-- C10: when `changeMode` targets SERVICE from a different mode while
`entityError()` holds, the resulting mode is ERROR; and no `changeMode`
call can land in SERVICE while `entityError()` holds unless the supervisor
already was in SERVICE. -/
theorem changeMode_no_service_on_entity_error (now : ℚ) (t : Task)
    (s : OpMode) (man : Option Maneuver) (h : entityError t = true) :
    ((s = OpMode.service → t.vs.op_mode ≠ OpMode.service →
        (changeMode now t s man).1.vs.op_mode = OpMode.error) ∧
     ((changeMode now t s man).1.vs.op_mode = OpMode.service →
        t.vs.op_mode = OpMode.service)) := by
  rcases man with _ | m <;>
    by_cases hs : t.vs.op_mode = s <;>
    by_cases hsv : s = OpMode.service <;>
    by_cases hm2 : s = OpMode.maneuver <;>
    simp_all [changeMode]

/-- Witness for C10: from MANEUVER with a pending entity error, a
requested transition to SERVICE lands in ERROR. -/
theorem changeMode_no_service_on_entity_error_witness :
    entityError taskManeuverErr = true ∧
      (changeMode 0 taskManeuverErr OpMode.service none).1.vs.op_mode
        = OpMode.error :=
  ⟨by decide,
   (changeMode_no_service_on_entity_error 0 taskManeuverErr OpMode.service
      none (by decide)).1 rfl (by decide)⟩

/-- C4: `entityError()` holds exactly when `error_count` is non-zero and,
when a safe plan is running with a non-empty whitelist, some name from
splitting `error_ents` on a comma is a whitelist member (any error counts
otherwise). -/
theorem entityError_characterization (t : Task) :
    entityError t = true ↔
      (t.vs.error_count ≠ 0 ∧
       (t.in_safe_plan ∧ t.safe_ents ≠ [] →
         ∃ e ∈ t.vs.error_ents.splitOn ",", e ∈ t.safe_ents)) := by
  unfold entityError
  by_cases h1 : t.vs.error_count = 0
  · simp [h1]
  · rw [if_pos h1]
    by_cases h2 : t.safe_ents.length ≠ 0 ∧ t.in_safe_plan
    · rw [if_pos h2]
      constructor
      · intro hany
        refine ⟨h1, fun _ => ?_⟩
        rw [List.any_eq_true] at hany
        obtain ⟨e, he, hin⟩ := hany
        rw [List.any_eq_true] at hin
        obtain ⟨s, hsmem, hbeq⟩ := hin
        exact ⟨e, he, (eq_of_beq hbeq) ▸ hsmem⟩
      · rintro ⟨-, hex⟩
        obtain ⟨e, he, hsmem⟩ :=
          hex ⟨h2.2, fun hnil => h2.1 (by simp [hnil])⟩
        rw [List.any_eq_true]
        refine ⟨e, he, ?_⟩
        rw [List.any_eq_true]
        exact ⟨e, hsmem, beq_self_eq_true e⟩
    · rw [if_neg h2]
      simp only [true_iff]
      refine ⟨h1, ?_⟩
      rintro ⟨hp, hne⟩
      exact absurd ⟨fun hz => hne (List.length_eq_zero.mp hz), hp⟩ h2

/-- C5: an `Abort` in MANEUVER dispatches `StopManeuver` and
`IdleManeuver`, records "got abort request", and moves to SERVICE — or to
ERROR when entities are in error; an `Abort` in ERROR leaves the mode in
ERROR. -/
theorem abort_behaviour (now : ℚ) (t : Task) :
    (t.vs.op_mode = OpMode.maneuver →
      ((consumeAbort now t).1.vs.last_error = "got abort request" ∧
       (consumeAbort now t).1.vs.op_mode =
         (if t.vs.error_count ≠ 0 then OpMode.error else OpMode.service) ∧
       (consumeAbort now t).2 =
         [OutMsg.stopManeuver, OutMsg.idleManeuver,
          OutMsg.vehicleState (consumeAbort now t).1.vs])) ∧
    (t.vs.op_mode = OpMode.error →
      (consumeAbort now t).1.vs.op_mode = OpMode.error) := by
  constructor
  · intro h
    by_cases he : t.vs.error_count = 0 <;>
      simp_all [consumeAbort, reset, changeMode, entityError,
        nonOverridableLoops]
  · intro h
    simp_all [consumeAbort]

/-- Witness for C5: aborting right after the accepted Goto maneuver stops
it, goes back to SERVICE and records the abort. -/
theorem abort_behaviour_witness :
    taskAfterExec.vs.op_mode = OpMode.maneuver ∧
      ((consumeAbort 7 taskAfterExec).1.vs.last_error = "got abort request" ∧
       (consumeAbort 7 taskAfterExec).1.vs.op_mode =
         (if taskAfterExec.vs.error_count ≠ 0 then OpMode.error
          else OpMode.service) ∧
       (consumeAbort 7 taskAfterExec).2 =
         [OutMsg.stopManeuver, OutMsg.idleManeuver,
          OutMsg.vehicleState (consumeAbort 7 taskAfterExec).1.vs]) :=
  ⟨by decide, (abort_behaviour 7 taskAfterExec).1 (by decide)⟩

/-- C6: a critical entity error reported while in CALIBRATION updates
`error_count`, `error_ents` and `last_error` but leaves `op_mode` at
CALIBRATION with nothing dispatched; when the calibration timer then
expires, the requested transition to SERVICE lands in ERROR. -/
theorem calibration_defers_entity_error (now : ℚ) (t : Task) (msg : EMS)
    (now2 : ℚ) (tc : Task)
    (h1 : t.vs.op_mode = OpMode.calibration)
    (h2 : (msg.ccount + msg.ecount) % 256 ≠ 0)
    (h3 : msg.last_error_time > t.vs.last_error_time)
    (h4 : msg.ecount = 0)
    (h5 : tc.vs.op_mode = OpMode.calibration)
    (h6 : entityError tc = true)
    (h7 : 0 ≤ tc.switch_time)
    (h8 : now2 - tc.switch_time > tc.calibration_time) :
    ((consumeEntityMonitoringState now t msg).1.vs.op_mode
        = OpMode.calibration ∧
     (consumeEntityMonitoringState now t msg).2 = [] ∧
     (consumeEntityMonitoringState now t msg).1.vs.error_count
        = (msg.ccount + msg.ecount) % 256 ∧
     (consumeEntityMonitoringState now t msg).1.vs.error_ents
        = (if msg.ccount ≠ 0 then msg.cnames else "") ∧
     (consumeEntityMonitoringState now t msg).1.vs.last_error
        = msg.last_error) ∧
    (task now2 tc).1.vs.op_mode = OpMode.error := by
  constructor
  · by_cases hc : msg.ccount ≠ 0 <;>
      simp_all [consumeEntityMonitoringState, emsUpdateVS]
  · have hlt : ¬ tc.switch_time < 0 := not_lt.mpr h7
    simp [task, hlt, h5, h8, changeMode, h6]

/-- Witness for C6: an IMU error reported during calibration is recorded
without a mode change; 20 s later the tick turns calibration into ERROR. -/
theorem calibration_defers_entity_error_witness :
    ((consumeEntityMonitoringState 4 taskCalib emsIMU).1.vs.op_mode
        = OpMode.calibration ∧
     (consumeEntityMonitoringState 4 taskCalib emsIMU).2 = [] ∧
     (consumeEntityMonitoringState 4 taskCalib emsIMU).1.vs.error_count
        = (emsIMU.ccount + emsIMU.ecount) % 256 ∧
     (consumeEntityMonitoringState 4 taskCalib emsIMU).1.vs.error_ents
        = (if emsIMU.ccount ≠ 0 then emsIMU.cnames else "") ∧
     (consumeEntityMonitoringState 4 taskCalib emsIMU).1.vs.last_error
        = emsIMU.last_error) ∧
    (task 20 taskCalibErr).1.vs.op_mode = OpMode.error :=
  calibration_defers_entity_error 4 taskCalib emsIMU 20 taskCalibErr
    (by decide) (by decide) (by decide) (by decide) (by decide) (by decide)
    (by decide)
    (by norm_num [taskCalibErr, taskInit, setInitialState])

/-- C7 counterexample: after the accepted `EXEC_MANEUVER` the switch timer
is disarmed (`m_switch_time = -1`), so a tick far beyond the 1.0 s timeout
changes nothing and the supervisor stays in MANEUVER — it does not reset
and return to SERVICE as the claim states. -/
theorem tick_after_exec_no_timeout :
    taskAfterExec.vs.op_mode = OpMode.maneuver ∧
    taskAfterExec.switch_time = -1 ∧
    (task 100 taskAfterExec).1 = taskAfterExec ∧
    (task 100 taskAfterExec).2 = [OutMsg.vehicleState taskAfterExec.vs] := by
  refine ⟨by decide, by decide, ?_, ?_⟩ <;> decide

/-- C7 (amended): the 1.0 s maneuver timeout runs from the arming of the
switch timer (which in MANEUVER only `ManeuverControlState DONE` sets),
not from the maneuver request: with the timer armed, a tick more than
`c_man_timeout` later resets and returns to SERVICE (entities healthy). -/
theorem tick_maneuver_timeout (now : ℚ) (t : Task)
    (h1 : t.vs.op_mode = OpMode.maneuver)
    (h2 : 0 ≤ t.switch_time)
    (h3 : now - t.switch_time > c_man_timeout)
    (h4 : t.vs.error_count = 0) :
    (task now t).1.vs.op_mode = OpMode.service ∧
    (task now t).1.switch_time = -1 ∧
    (task now t).2 =
      [OutMsg.vehicleState t.vs, OutMsg.stopManeuver, OutMsg.idleManeuver,
       OutMsg.vehicleState (task now t).1.vs] := by
  have hlt : ¬ t.switch_time < 0 := not_lt.mpr h2
  simp [task, hlt, h1, h3, reset, changeMode, entityError, h4]

/-- Witness for C7 (amended): armed at 2, ticked at 5. -/
theorem tick_maneuver_timeout_witness :
    (task 5 taskManeuverArmed).1.vs.op_mode = OpMode.service ∧
    (task 5 taskManeuverArmed).1.switch_time = -1 ∧
    (task 5 taskManeuverArmed).2 =
      [OutMsg.vehicleState taskManeuverArmed.vs, OutMsg.stopManeuver,
       OutMsg.idleManeuver,
       OutMsg.vehicleState (task 5 taskManeuverArmed).1.vs] :=
  tick_maneuver_timeout 5 taskManeuverArmed (by decide) (by decide)
    (by norm_num [taskManeuverArmed, taskInit, setInitialState, c_man_timeout])
    (by decide)

/-- C1 counterexample: in ERROR mode (neither SERVICE nor MANEUVER) an
`EXEC_MANEUVER` with a maneuver is still accepted: the supervisor replies
SUCCESS and enters MANEUVER, refuting "accepts exactly when op_mode is
SERVICE or MANEUVER". -/
theorem exec_maneuver_accepted_in_error_mode :
    taskErrorMode.vs.op_mode = OpMode.error ∧
    (consumeVehicleCommand 5 taskErrorMode cmdExec).1.vs.op_mode
      = OpMode.maneuver ∧
    answer cmdExec true ("Goto maneuver started")
      ∈ (consumeVehicleCommand 5 taskErrorMode cmdExec).2 := by
  refine ⟨by decide, by decide, ?_⟩
  decide

/-- C1 (amended): an `EXEC_MANEUVER` request carrying a maneuver is
accepted — SUCCESS reply, `StopManeuver` then the maneuver payload
dispatched, MANEUVER entered — exactly when `op_mode` is not EXTERNAL
(so also from CALIBRATION and ERROR), and in EXTERNAL it is rejected with
FAILURE leaving the state unchanged. -/
theorem exec_maneuver_accepts_iff_not_external (now : ℚ) (t : Task)
    (cmd : VehicleCommand) (m : Maneuver)
    (h1 : cmd.vtype = VCType.request)
    (h2 : cmd.command = 0)
    (h3 : cmd.maneuver = some m) :
    (t.vs.op_mode ≠ OpMode.external →
      (consumeVehicleCommand now t cmd).1.vs.op_mode = OpMode.maneuver ∧
      (consumeVehicleCommand now t cmd).2 =
        [OutMsg.stopManeuver, OutMsg.maneuver m.mid now,
         OutMsg.vehicleState (consumeVehicleCommand now t cmd).1.vs,
         answer cmd true (m.name ++ " maneuver started")]) ∧
    (t.vs.op_mode = OpMode.external →
      (consumeVehicleCommand now t cmd).1 = t ∧
      (consumeVehicleCommand now t cmd).2 =
        [answer cmd false
          (m.name ++ " maneuver cannot be started in current mode")]) := by
  constructor
  · intro hmode
    by_cases hman : t.vs.op_mode = OpMode.maneuver <;>
      simp_all [consumeVehicleCommand, startManeuver, changeMode]
  · intro hmode
    simp_all [consumeVehicleCommand, startManeuver]

/-- Witness for C1 (amended): the Goto request from a fresh supervisor in
SERVICE. -/
theorem exec_maneuver_accepts_iff_not_external_witness :
    taskInit.vs.op_mode ≠ OpMode.external ∧
    ((consumeVehicleCommand 5 taskInit cmdExec).1.vs.op_mode
        = OpMode.maneuver ∧
     (consumeVehicleCommand 5 taskInit cmdExec).2 =
       [OutMsg.stopManeuver, OutMsg.maneuver manGoto.mid 5,
        OutMsg.vehicleState (consumeVehicleCommand 5 taskInit cmdExec).1.vs,
        answer cmdExec true (manGoto.name ++ " maneuver started")]) :=
  ⟨by decide,
   (exec_maneuver_accepts_iff_not_external 5 taskInit cmdExec manGoto
      rfl rfl rfl).1 (by decide)⟩

theorem changeMode_control_loops (now : ℚ) (t : Task) (s : OpMode)
    (man : Option Maneuver) :
    (changeMode now t s man).1.vs.control_loops = t.vs.control_loops := by
  rcases man with _ | m <;>
    simp only [changeMode] <;>
    split_ifs <;>
    simp_all

theorem onEnabled_control_loops (now : ℚ) (t : Task) :
    (onEnabledControlLoops now t).1.vs.control_loops = t.vs.control_loops ∨
    (onEnabledControlLoops now t).1.vs.control_loops = 0 := by
  unfold onEnabledControlLoops
  cases h : t.vs.op_mode <;>
    simp [changeMode_control_loops, reset]
  split_ifs <;> simp [changeMode_control_loops, reset]

theorem onDisabled_control_loops (now : ℚ) (t : Task) :
    (onDisabledControlLoops now t).1.vs.control_loops
      = t.vs.control_loops := by
  unfold onDisabledControlLoops
  split_ifs <;> simp [changeMode_control_loops]

theorem consumeCL_disable_loops (now : ℚ) (t : Task) (m : Nat) :
    (consumeControlLoops now t false m).1.vs.control_loops
      = t.vs.control_loops &&& (0xFFFFFFFF ^^^ m) := by
  unfold consumeControlLoops
  simp only [Bool.false_eq_true, if_false]
  split_ifs with h
  · rw [onDisabled_control_loops]
  · rfl

theorem consumeCL_enable_loops (now : ℚ) (t : Task) (m : Nat) :
    (consumeControlLoops now t true m).1.vs.control_loops
        = t.vs.control_loops ||| m ∨
    (t.vs.control_loops = 0 ∧
      (consumeControlLoops now t true m).1.vs.control_loops = 0) := by
  unfold consumeControlLoops
  simp only [if_true]
  split_ifs with h
  · rcases onEnabled_control_loops now
      { t with vs := { t.vs with control_loops := t.vs.control_loops ||| m } }
      with h2 | h2
    · left; rw [h2]
    · right; exact ⟨h.1, h2⟩
  · left; rfl

theorem land_mask_after_or (v m : Nat) (hm : m < 2 ^ 32) :
    (v ||| m) &&& (0xFFFFFFFF ^^^ m) = v &&& (0xFFFFFFFF ^^^ m) := by
  apply Nat.eq_of_testBit_eq
  intro i
  have hFF : (0xFFFFFFFF : Nat) = 2 ^ 32 - 1 := by norm_num
  simp only [Nat.testBit_land, Nat.testBit_lor, Nat.testBit_xor, hFF,
    Nat.testBit_two_pow_sub_one]
  by_cases hi : i < 32
  · cases hmi : m.testBit i <;> simp [hi, hmi]
  · have hm0 : m.testBit i = false := by
      apply Nat.testBit_lt_two_pow
      exact lt_of_lt_of_le hm (Nat.pow_le_pow_right (by norm_num)
        (le_of_not_lt hi))
    simp [hi, hm0]

theorem land_mask_restores_iff (v m : Nat) (hv : v < 2 ^ 32) :
    v &&& (0xFFFFFFFF ^^^ m) = v ↔ v &&& m = 0 := by
  have hFF : (0xFFFFFFFF : Nat) = 2 ^ 32 - 1 := by norm_num
  constructor
  · intro h
    apply Nat.eq_of_testBit_eq
    intro i
    have hb := congrArg (fun x => x.testBit i) h
    simp only [Nat.testBit_land, Nat.testBit_xor, hFF,
      Nat.testBit_two_pow_sub_one] at hb
    simp only [Nat.testBit_land, Nat.zero_testBit]
    cases hvi : v.testBit i
    · simp
    · by_cases hi : i < 32
      · rw [hvi] at hb
        simp [hi] at hb
        simp [hb]
      · exact absurd (Nat.testBit_lt_two_pow (lt_of_lt_of_le hv
          (Nat.pow_le_pow_right (by norm_num) (le_of_not_lt hi)))) (by
            simp [hvi])
  · intro h
    apply Nat.eq_of_testBit_eq
    intro i
    have hb := congrArg (fun x => x.testBit i) h
    simp only [Nat.testBit_land, Nat.zero_testBit] at hb
    simp only [Nat.testBit_land, Nat.testBit_xor, hFF,
      Nat.testBit_two_pow_sub_one]
    cases hvi : v.testBit i
    · simp
    · by_cases hi : i < 32
      · rw [hvi] at hb
        simp at hb
        simp [hi, hb]
      · exact absurd (Nat.testBit_lt_two_pow (lt_of_lt_of_le hv
          (Nat.pow_le_pow_right (by norm_num) (le_of_not_lt hi)))) (by
            simp [hvi])

/-- C2 counterexample: with loop bit 0 already enabled
(`control_loops = 1`), enabling mask 1 and then disabling mask 1 leaves
`control_loops = 0`, not the prior value 1 — the round trip does not
restore the prior value for every `v` and mask. -/
theorem control_loops_not_restored :
    taskLoops1.vs.control_loops = 1 ∧
    (consumeControlLoops 0 (consumeControlLoops 0 taskLoops1 true 1).1
        false 1).1.vs.control_loops = 0 := by
  exact ⟨by decide, by decide⟩

/-- C2 (amended): enabling mask `m` and then disabling mask `m` leaves
`control_loops = v &&& ~m` (32-bit complement), so the prior value `v` is
restored exactly when `v &&& m = 0`, i.e. no bit of `m` was previously
enabled. -/
theorem control_loops_enable_then_disable (now now2 : ℚ) (t : Task)
    (m : Nat) (hv : t.vs.control_loops < 2 ^ 32) (hm : m < 2 ^ 32) :
    ((consumeControlLoops now2 (consumeControlLoops now t true m).1
        false m).1.vs.control_loops
      = t.vs.control_loops &&& (0xFFFFFFFF ^^^ m)) ∧
    ((consumeControlLoops now2 (consumeControlLoops now t true m).1
        false m).1.vs.control_loops = t.vs.control_loops
      ↔ t.vs.control_loops &&& m = 0) := by
  have hmain : (consumeControlLoops now2 (consumeControlLoops now t true m).1
      false m).1.vs.control_loops
      = t.vs.control_loops &&& (0xFFFFFFFF ^^^ m) := by
    rw [consumeCL_disable_loops]
    rcases consumeCL_enable_loops now t m with h | ⟨h0, h⟩
    · rw [h, land_mask_after_or _ _ hm]
    · rw [h, h0]
  exact ⟨hmain, by rw [hmain]; exact land_mask_restores_iff _ _ hv⟩

/-- Witness for C2 (amended): fresh supervisor, mask 4. -/
theorem control_loops_enable_then_disable_witness :
    taskInit.vs.control_loops < 2 ^ 32 ∧ (4 : Nat) < 2 ^ 32 ∧
    (((consumeControlLoops 0 (consumeControlLoops 0 taskInit true 4).1
        false 4).1.vs.control_loops
      = taskInit.vs.control_loops &&& (0xFFFFFFFF ^^^ 4)) ∧
     ((consumeControlLoops 0 (consumeControlLoops 0 taskInit true 4).1
        false 4).1.vs.control_loops = taskInit.vs.control_loops
      ↔ taskInit.vs.control_loops &&& 4 = 0)) :=
  ⟨by decide, by decide,
   control_loops_enable_then_disable 0 0 taskInit 4 (by decide) (by decide)⟩

theorem stopManeuver_error_id (now : ℚ) (t : Task) (cmd : VehicleCommand)
    (h : t.vs.op_mode = OpMode.error) :
    stopManeuver now t cmd = (t, [answer cmd true "OK"]) := by
  simp [stopManeuver, h]

theorem changeMode_service_fields (now : ℚ) (u : Task) :
    ((changeMode now u OpMode.service none).1.vs.op_mode = OpMode.service ∨
     (changeMode now u OpMode.service none).1.vs.op_mode = OpMode.error) ∧
    (changeMode now u OpMode.service none).1.in_safe_plan
      = u.in_safe_plan ∧
    (changeMode now u OpMode.service none).1.vs.control_loops
      = u.vs.control_loops ∧
    (changeMode now u OpMode.service none).1.switch_time = -1 := by
  by_cases h1 : u.vs.op_mode = OpMode.service <;>
    by_cases h2 : entityError u = true <;>
    simp [changeMode, h1, h2]

theorem stopManeuver_not_error (now : ℚ) (t : Task) (cmd : VehicleCommand)
    (h : (stopManeuver now t cmd).1.vs.op_mode ≠ OpMode.error) :
    (stopManeuver now t cmd).1.vs.op_mode = OpMode.service ∧
    (stopManeuver now t cmd).1.in_safe_plan = false ∧
    (stopManeuver now t cmd).1.vs.control_loops = 0 ∧
    (stopManeuver now t cmd).1.switch_time = -1 := by
  by_cases hE : t.vs.op_mode = OpMode.error
  · rw [stopManeuver_error_id now t cmd hE] at h
    exact absurd hE h
  · have hno : ¬ nonOverridableLoops (reset t).1 := by
      simp [reset, nonOverridableLoops]
    have hstep : (stopManeuver now t cmd).1
        = (changeMode now (reset t).1 OpMode.service none).1 := by
      simp [stopManeuver, hE, hno]
    rw [hstep] at h ⊢
    obtain ⟨hmode, hsp2, hcl2, hsw2⟩ := changeMode_service_fields now (reset t).1
    rcases hmode with hmode | hmode
    · refine ⟨hmode, ?_, ?_, hsw2⟩
      · rw [hsp2]; simp [reset]
      · rw [hcl2]; simp [reset]
    · exact absurd hmode h

theorem stopManeuver_service_clean (now : ℚ) (t : Task)
    (cmd : VehicleCommand)
    (h1 : t.vs.op_mode = OpMode.service) (h2 : t.in_safe_plan = false)
    (h3 : t.vs.control_loops = 0) (h4 : t.switch_time = -1) :
    stopManeuver now t cmd =
      (t, [OutMsg.idleManeuver, OutMsg.vehicleState t.vs,
           answer cmd true "OK"]) := by
  obtain ⟨cal, ents, sw, sp, vs⟩ := t
  obtain ⟨o, mt, ms, me, ee, ec, fl, le, lt2, cl⟩ := vs
  simp_all [stopManeuver, reset, changeMode, nonOverridableLoops]

/-- C3 counterexample: processing a second identical `STOP_MANEUVER` from
a fresh supervisor re-dispatches `IdleManeuver` and the `VehicleState`
snapshot besides the SUCCESS reply — the second command is not free of
further dispatched messages. -/
theorem stop_maneuver_second_dispatches_more :
    (consumeVehicleCommand 6 (consumeVehicleCommand 5 taskInit cmdStop).1
        cmdStop).2
      = [OutMsg.idleManeuver,
         OutMsg.vehicleState (consumeVehicleCommand 5 taskInit cmdStop).1.vs,
         answer cmdStop true "OK"] ∧
    (consumeVehicleCommand 6 (consumeVehicleCommand 5 taskInit cmdStop).1
        cmdStop).2
      ≠ [answer cmdStop true "OK"] := by
  exact ⟨by decide, by decide⟩

/-- C3 (amended): processing `STOP_MANEUVER` is idempotent on the task
state — the second identical command replies SUCCESS and leaves the state
unchanged — but it is not silent: outside ERROR mode it re-dispatches
`IdleManeuver` and the `VehicleState` snapshot before the reply. -/
theorem stop_maneuver_idempotent_state (now now2 : ℚ) (t : Task)
    (cmd : VehicleCommand)
    (h1 : cmd.vtype = VCType.request) (h2 : cmd.command = 1) :
    ((consumeVehicleCommand now2 (consumeVehicleCommand now t cmd).1 cmd).1
       = (consumeVehicleCommand now t cmd).1) ∧
    ((consumeVehicleCommand now2 (consumeVehicleCommand now t cmd).1 cmd).2
       = [answer cmd true "OK"] ∨
     (consumeVehicleCommand now2 (consumeVehicleCommand now t cmd).1 cmd).2
       = [OutMsg.idleManeuver,
          OutMsg.vehicleState (consumeVehicleCommand now t cmd).1.vs,
          answer cmd true "OK"]) := by
  have hcv : ∀ (n : ℚ) (u : Task),
      consumeVehicleCommand n u cmd = stopManeuver n u cmd := by
    intro n u
    simp [consumeVehicleCommand, h1, h2]
  simp only [hcv]
  by_cases hE : (stopManeuver now t cmd).1.vs.op_mode = OpMode.error
  · rw [stopManeuver_error_id now2 _ cmd hE]
    exact ⟨rfl, Or.inl rfl⟩
  · obtain ⟨hs, hsp, hcl, hsw⟩ := stopManeuver_not_error now t cmd hE
    rw [stopManeuver_service_clean now2 _ cmd hs hsp hcl hsw]
    exact ⟨rfl, Or.inr rfl⟩

/-- Witness for C3 (amended): two stop requests against a fresh
supervisor. -/
theorem stop_maneuver_idempotent_state_witness :
    cmdStop.vtype = VCType.request ∧ cmdStop.command = 1 ∧
    (((consumeVehicleCommand 6 (consumeVehicleCommand 5 taskInit cmdStop).1
        cmdStop).1 = (consumeVehicleCommand 5 taskInit cmdStop).1) ∧
     ((consumeVehicleCommand 6 (consumeVehicleCommand 5 taskInit cmdStop).1
        cmdStop).2 = [answer cmdStop true "OK"] ∨
      (consumeVehicleCommand 6 (consumeVehicleCommand 5 taskInit cmdStop).1
        cmdStop).2
        = [OutMsg.idleManeuver,
           OutMsg.vehicleState
             (consumeVehicleCommand 5 taskInit cmdStop).1.vs,
           answer cmdStop true "OK"])) :=
  ⟨by decide, by decide,
   stop_maneuver_idempotent_state 5 6 taskInit cmdStop rfl rfl⟩

theorem lastManeuver_append (g : Option Nat) (a b : List OutMsg) :
    lastManeuver g (a ++ b) = lastManeuver (lastManeuver g a) b := by
  simp [lastManeuver, List.foldl_append]

theorem reset_ghost (g : Option Nat) (t : Task) :
    lastManeuver g (reset t).2 = g := by
  by_cases h : t.vs.op_mode = OpMode.maneuver <;>
    simp [reset, h, lastManeuver, updGhost]

theorem reset_invT (t : Task) (g : Option Nat) (h : InvT t g) :
    InvT (reset t).1 g := by
  simpa [InvT, reset] using h

theorem switch_invT (t : Task) (x : ℚ) (g : Option Nat) (h : InvT t g) :
    InvT { t with switch_time := x } g := by
  simpa [InvT] using h

theorem changeMode_invT (now : ℚ) (t : Task) (s : OpMode)
    (man : Option Maneuver) (g : Option Nat)
    (hnow : 0 ≤ now) (h : InvT t g)
    (hman : s = OpMode.maneuver → man.isSome) :
    InvT (changeMode now t s man).1
      (lastManeuver g (changeMode now t s man).2) := by
  obtain ⟨h1, h2⟩ := h
  have hneg : ¬ (0 : ℚ) ≤ -1 := by norm_num
  rcases man with _ | m
  · have hsm : s ≠ OpMode.maneuver := by
      intro hc
      simpa using hman hc
    by_cases hs : t.vs.op_mode = s
    · by_cases hm : t.vs.op_mode = OpMode.maneuver <;>
        simp_all [changeMode, InvT, lastManeuver, updGhost]
    · by_cases hsv : s = OpMode.service <;>
        by_cases hee : entityError t = true <;>
        simp_all [changeMode, InvT, lastManeuver, updGhost]
  · by_cases hs : t.vs.op_mode = s
    · by_cases hm : t.vs.op_mode = OpMode.maneuver <;>
        simp_all [changeMode, InvT, lastManeuver, updGhost]
    · by_cases hsm : s = OpMode.maneuver
      · simp_all [changeMode, InvT, lastManeuver, updGhost]
      · by_cases hsv : s = OpMode.service <;>
          by_cases hee : entityError t = true <;>
          simp_all [changeMode, InvT, lastManeuver, updGhost]

theorem consumeAbort_invT (now : ℚ) (t : Task) (g : Option Nat)
    (hnow : 0 ≤ now) (h : InvT t g) :
    InvT (consumeAbort now t).1
      (lastManeuver g (consumeAbort now t).2) := by
  have ht1 : InvT { t with vs := { t.vs with
      last_error := "got abort request", last_error_time := now } } g := by
    simpa [InvT] using h
  by_cases hm : t.vs.op_mode = OpMode.error
  · simpa [consumeAbort, hm, lastManeuver] using ht1
  · by_cases hc : (reset { t with vs := { t.vs with
        last_error := "got abort request",
        last_error_time := now } }).1.vs.op_mode ≠ OpMode.external ∨
        ¬ nonOverridableLoops (reset { t with vs := { t.vs with
          last_error := "got abort request",
          last_error_time := now } }).1
    · have hstep : consumeAbort now t =
          ((changeMode now (reset { t with vs := { t.vs with
              last_error := "got abort request",
              last_error_time := now } }).1 OpMode.service none).1,
           (reset { t with vs := { t.vs with
              last_error := "got abort request",
              last_error_time := now } }).2 ++
           (changeMode now (reset { t with vs := { t.vs with
              last_error := "got abort request",
              last_error_time := now } }).1 OpMode.service none).2) := by
        simp [consumeAbort, hm, hc]
      rw [hstep, lastManeuver_append, reset_ghost]
      exact changeMode_invT now _ OpMode.service none g hnow
        (reset_invT _ g ht1) (fun hcon => absurd hcon (by decide))
    · have hstep : consumeAbort now t =
          reset { t with vs := { t.vs with
            last_error := "got abort request",
            last_error_time := now } } := by
        simp only [consumeAbort, if_pos hm]
        rw [if_neg hc]
      rw [hstep, reset_ghost]
      exact reset_invT _ g ht1

theorem onEnabled_invT (now : ℚ) (t : Task) (g : Option Nat)
    (hnow : 0 ≤ now) (h : InvT t g) :
    InvT (onEnabledControlLoops now t).1
      (lastManeuver g (onEnabledControlLoops now t).2) := by
  unfold onEnabledControlLoops
  rcases hm : t.vs.op_mode
  case service =>
    exact changeMode_invT now t OpMode.external none g hnow h
      (fun hc => absurd hc (by decide))
  case error =>
    by_cases hno : nonOverridableLoops t
    · simp only [if_pos hno]
      exact changeMode_invT now t OpMode.external none g hnow h
        (fun hc => absurd hc (by decide))
    · simp only [if_neg hno]
      rw [reset_ghost]
      exact reset_invT t g h
  all_goals simpa [lastManeuver] using h

theorem onDisabled_invT (now : ℚ) (t : Task) (g : Option Nat)
    (hnow : 0 ≤ now) (h : InvT t g) :
    InvT (onDisabledControlLoops now t).1
      (lastManeuver g (onDisabledControlLoops now t).2) := by
  unfold onDisabledControlLoops
  by_cases hm : t.vs.op_mode = OpMode.external
  · simp only [if_pos hm]
    exact changeMode_invT now t OpMode.service none g hnow h
      (fun hc => absurd hc (by decide))
  · simp only [if_neg hm]
    simpa [lastManeuver] using h

theorem consumeControlLoops_invT (now : ℚ) (t : Task) (e : Bool) (m : Nat)
    (g : Option Nat) (hnow : 0 ≤ now) (h : InvT t g) :
    InvT (consumeControlLoops now t e m).1
      (lastManeuver g (consumeControlLoops now t e m).2) := by
  cases e
  · have ht1 : InvT { t with vs := { t.vs with
        control_loops := t.vs.control_loops &&& (0xFFFFFFFF ^^^ m) } } g := by
      simpa [InvT] using h
    by_cases hc : t.vs.control_loops ≠ 0 ∧
        ({ t with vs := { t.vs with
          control_loops := t.vs.control_loops &&& (0xFFFFFFFF ^^^ m) } }
            : Task).vs.control_loops = 0
    · simp only [consumeControlLoops, Bool.false_eq_true, if_false,
        if_pos hc]
      exact onDisabled_invT now _ g hnow ht1
    · simp only [consumeControlLoops, Bool.false_eq_true, if_false,
        if_neg hc]
      simpa [lastManeuver] using ht1
  · have ht1 : InvT { t with vs := { t.vs with
        control_loops := t.vs.control_loops ||| m } } g := by
      simpa [InvT] using h
    by_cases hc : t.vs.control_loops = 0 ∧
        ({ t with vs := { t.vs with
          control_loops := t.vs.control_loops ||| m } }
            : Task).vs.control_loops ≠ 0
    · simp only [consumeControlLoops, if_true, if_pos hc]
      exact onEnabled_invT now _ g hnow ht1
    · simp only [consumeControlLoops, if_true, if_neg hc]
      simpa [lastManeuver] using ht1

theorem invT_vs_update (t : Task) (g : Option Nat) (vs2 : VS)
    (hmode : vs2.op_mode = t.vs.op_mode)
    (hstime : vs2.maneuver_stime = t.vs.maneuver_stime)
    (htype : vs2.maneuver_type = t.vs.maneuver_type)
    (h : InvT t g) : InvT { t with vs := vs2 } g := by
  obtain ⟨h1, h2⟩ := h
  refine ⟨?_, ?_⟩
  · simpa [hstime, hmode] using h1
  · intro hx
    rw [show ({ t with vs := vs2 } : Task).vs.maneuver_type
      = vs2.maneuver_type from rfl, htype]
    exact h2 (by rwa [show ({ t with vs := vs2 } : Task).vs.op_mode
      = vs2.op_mode from rfl, hmode] at hx)

theorem emsUpdateVS_core (vs : VS) (msg : EMS) :
    (emsUpdateVS vs msg).op_mode = vs.op_mode ∧
    (emsUpdateVS vs msg).maneuver_stime = vs.maneuver_stime ∧
    (emsUpdateVS vs msg).maneuver_type = vs.maneuver_type := by
  simp only [emsUpdateVS, apply_ite (fun v : VS => v.op_mode),
    apply_ite (fun v : VS => v.maneuver_stime),
    apply_ite (fun v : VS => v.maneuver_type)]
  simp

theorem consumeEMS_invT (now : ℚ) (t : Task) (msg : EMS) (g : Option Nat)
    (hnow : 0 ≤ now) (h : InvT t g) :
    InvT (consumeEntityMonitoringState now t msg).1
      (lastManeuver g (consumeEntityMonitoringState now t msg).2) := by
  obtain ⟨hm0, hs0, ht0⟩ := emsUpdateVS_core t.vs msg
  have ht1 : InvT { t with vs := emsUpdateVS t.vs msg } g :=
    invT_vs_update t g _ hm0 hs0 ht0 h
  by_cases hm1 : ({ t with vs := emsUpdateVS t.vs msg } : Task).vs.op_mode
      = OpMode.error
  · by_cases hz : ({ t with vs := emsUpdateVS t.vs msg } : Task).vs.error_count
        = 0
    · simp only [consumeEntityMonitoringState, if_pos hm1, if_pos hz]
      exact changeMode_invT now _ OpMode.service none g hnow ht1
        (fun hc => absurd hc (by decide))
    · simp only [consumeEntityMonitoringState, if_pos hm1, if_neg hz]
      simpa [lastManeuver] using ht1
  · by_cases hm2 : ({ t with vs := emsUpdateVS t.vs msg } : Task).vs.op_mode
        = OpMode.external ∨
        ({ t with vs := emsUpdateVS t.vs msg } : Task).vs.op_mode
        = OpMode.maneuver
    · by_cases hc : entityError { t with vs := emsUpdateVS t.vs msg } ∧
          ¬ nonOverridableLoops { t with vs := emsUpdateVS t.vs msg } ∧
          ¬ teleoperationOn { t with vs := emsUpdateVS t.vs msg }
      · simp only [consumeEntityMonitoringState, if_neg hm1, if_pos hm2,
          if_pos hc]
        rw [lastManeuver_append, reset_ghost]
        exact changeMode_invT now _ OpMode.error none g hnow
          (reset_invT _ g ht1) (fun hcon => absurd hcon (by decide))
      · simp only [consumeEntityMonitoringState, if_neg hm1, if_pos hm2,
          if_neg hc]
        simpa [lastManeuver] using ht1
    · by_cases hc : entityError { t with vs := emsUpdateVS t.vs msg } ∧
          ¬ ({ t with vs := emsUpdateVS t.vs msg } : Task).vs.op_mode
            = OpMode.calibration
      · simp only [consumeEntityMonitoringState, if_neg hm1, if_neg hm2,
          if_pos hc]
        rw [lastManeuver_append, reset_ghost]
        exact changeMode_invT now _ OpMode.error none g hnow
          (reset_invT _ g ht1) (fun hcon => absurd hcon (by decide))
      · simp only [consumeEntityMonitoringState, if_neg hm1, if_neg hm2,
          if_neg hc]
        simpa [lastManeuver] using ht1

theorem consumeMCS_invT (now : ℚ) (t : Task) (msg : MCS) (g : Option Nat)
    (hnow : 0 ≤ now) (h : InvT t g) :
    InvT (consumeManeuverControlState now t msg).1
      (lastManeuver g (consumeManeuverControlState now t msg).2) := by
  by_cases hself : msg.fromSelf = true
  · by_cases hmode : t.vs.op_mode = OpMode.maneuver
    · simp only [consumeManeuverControlState, if_neg (not_not_intro hself),
        if_neg (not_not_intro hmode)]
      cases hst : msg.state with
      | executing =>
          by_cases heta : msg.eta ≠ t.vs.maneuver_eta
          · simp only [if_pos heta]
            simpa [lastManeuver, updGhost] using
              invT_vs_update t g _ rfl rfl rfl h
          · simp only [if_neg heta]
            simpa [lastManeuver] using h
      | done =>
          simpa [lastManeuver, updGhost] using
            switch_invT _ now g (invT_vs_update t g _ rfl rfl rfl h)
      | error =>
          rw [lastManeuver_append, reset_ghost]
          exact reset_invT _ _
            (changeMode_invT now _ OpMode.service none g hnow
              (invT_vs_update t g _ rfl rfl rfl h)
              (fun hc => absurd hc (by decide)))
    · simp only [consumeManeuverControlState, if_neg (not_not_intro hself),
        if_pos hmode]
      simpa [lastManeuver] using h
  · simp only [consumeManeuverControlState, if_pos hself]
    simpa [lastManeuver] using h

theorem startManeuver_invT (now : ℚ) (t : Task) (cmd : VehicleCommand)
    (g : Option Nat) (hnow : 0 ≤ now) (h : InvT t g) :
    InvT (startManeuver now t cmd).1
      (lastManeuver g (startManeuver now t cmd).2) := by
  rcases hc : cmd.maneuver with _ | m
  · simp only [startManeuver, hc]
    simpa [lastManeuver, updGhost] using h
  · by_cases hm : t.vs.op_mode = OpMode.external
    · simp only [startManeuver, hc, if_pos hm]
      simpa [lastManeuver, updGhost] using h
    · simp only [startManeuver, hc, if_neg hm]
      rw [lastManeuver_append, lastManeuver_append]
      rw [show lastManeuver g [OutMsg.stopManeuver] = g from rfl]
      have hcm := changeMode_invT now t OpMode.maneuver (some m) g hnow h
        (fun _ => rfl)
      simpa [lastManeuver, updGhost] using hcm

theorem stopManeuver_invT (now : ℚ) (t : Task) (cmd : VehicleCommand)
    (g : Option Nat) (hnow : 0 ≤ now) (h : InvT t g) :
    InvT (stopManeuver now t cmd).1
      (lastManeuver g (stopManeuver now t cmd).2) := by
  by_cases hE : t.vs.op_mode = OpMode.error
  · rw [stopManeuver_error_id now t cmd hE]
    simpa [lastManeuver, updGhost] using h
  · have hno : ¬ nonOverridableLoops (reset t).1 := by
      simp [reset, nonOverridableLoops]
    have hstep : stopManeuver now t cmd
        = ((changeMode now (reset t).1 OpMode.service none).1,
           (reset t).2
             ++ (changeMode now (reset t).1 OpMode.service none).2
             ++ [answer cmd true "OK"]) := by
      simp [stopManeuver, hE, hno]
    rw [hstep, lastManeuver_append, lastManeuver_append, reset_ghost]
    have hcm := changeMode_invT now (reset t).1 OpMode.service none g hnow
      (reset_invT t g h) (fun hcon => absurd hcon (by decide))
    simpa [lastManeuver, updGhost] using hcm

theorem startCalibration_invT (now : ℚ) (t : Task) (cmd : VehicleCommand)
    (g : Option Nat) (hnow : 0 ≤ now) (h : InvT t g) :
    InvT (startCalibration now t cmd).1
      (lastManeuver g (startCalibration now t cmd).2) := by
  by_cases hm : t.vs.op_mode = OpMode.external
  · simp only [startCalibration, if_pos hm]
    simpa [lastManeuver, updGhost] using h
  · by_cases hman : t.vs.op_mode = OpMode.maneuver
    · simp only [startCalibration, if_neg hm, if_pos hman]
      rw [lastManeuver_append, lastManeuver_append, reset_ghost]
      have hcm := changeMode_invT now (reset t).1 OpMode.calibration none g
        hnow (reset_invT t g h) (fun hcon => absurd hcon (by decide))
      simpa [lastManeuver, updGhost] using switch_invT _ now _ hcm
    · simp only [startCalibration, if_neg hm, if_neg hman]
      rw [lastManeuver_append, lastManeuver_append]
      rw [show lastManeuver g ([] : List OutMsg) = g from rfl]
      have hcm := changeMode_invT now t OpMode.calibration none g hnow h
        (fun hcon => absurd hcon (by decide))
      simpa [lastManeuver, updGhost] using switch_invT _ now _ hcm

theorem consumeVC_invT (now : ℚ) (t : Task) (cmd : VehicleCommand)
    (g : Option Nat) (hnow : 0 ≤ now) (h : InvT t g) :
    InvT (consumeVehicleCommand now t cmd).1
      (lastManeuver g (consumeVehicleCommand now t cmd).2) := by
  by_cases h0 : cmd.vtype ≠ VCType.request
  · simp only [consumeVehicleCommand, if_pos h0]
    simpa [lastManeuver] using h
  · by_cases h1 : cmd.command = 0
    · simp only [consumeVehicleCommand, if_neg h0, if_pos h1]
      exact startManeuver_invT now t cmd g hnow h
    · by_cases h2 : cmd.command = 1
      · simp only [consumeVehicleCommand, if_neg h0, if_neg h1, if_pos h2]
        exact stopManeuver_invT now t cmd g hnow h
      · by_cases h3 : cmd.command = 2
        · simp only [consumeVehicleCommand, if_neg h0, if_neg h1,
            if_neg h2, if_pos h3]
          exact startCalibration_invT now t cmd g hnow h
        · simp only [consumeVehicleCommand, if_neg h0, if_neg h1,
            if_neg h2, if_neg h3]
          simpa [lastManeuver] using h

theorem consumePC_invT (t : Task) (a b c : Bool) (g : Option Nat)
    (h : InvT t g) :
    InvT (consumePlanControl t a b c).1
      (lastManeuver g (consumePlanControl t a b c).2) := by
  by_cases hc : a = true ∧ b = true
  · simp only [consumePlanControl, if_pos hc]
    simpa [InvT, lastManeuver] using h
  · simp only [consumePlanControl, if_neg hc]
    simpa [lastManeuver] using h

theorem task_invT (now : ℚ) (t : Task) (g : Option Nat)
    (hnow : 0 ≤ now) (h : InvT t g) :
    InvT (task now t).1 (lastManeuver g (task now t).2) := by
  by_cases hsw : t.switch_time < 0
  · simp only [task, if_pos hsw]
    simpa [lastManeuver] using h
  · by_cases hc1 : t.vs.op_mode = OpMode.calibration ∧
        now - t.switch_time > t.calibration_time
    · simp only [task, if_neg hsw, if_pos hc1]
      rw [lastManeuver_append]
      rw [show lastManeuver g [OutMsg.vehicleState t.vs] = g from rfl]
      have hcm := changeMode_invT now t OpMode.service none g hnow h
        (fun hcon => absurd hcon (by decide))
      exact switch_invT _ (-1) _ hcm
    · by_cases hc2 : t.vs.op_mode = OpMode.maneuver ∧
          now - t.switch_time > c_man_timeout
      · simp only [task, if_neg hsw, if_neg hc1, if_pos hc2]
        rw [lastManeuver_append, lastManeuver_append]
        rw [show lastManeuver g [OutMsg.vehicleState t.vs] = g from rfl]
        rw [reset_ghost]
        have hcm := changeMode_invT now (reset t).1 OpMode.service none g
          hnow (reset_invT t g h) (fun hcon => absurd hcon (by decide))
        exact switch_invT _ (-1) _ hcm
      · simp only [task, if_neg hsw, if_neg hc1, if_neg hc2]
        simpa [lastManeuver] using h

theorem step_invT (t : Task) (g : Option Nat) (i : Input)
    (hwf : i.wf) (h : InvT t g) :
    InvT (step t i).1 (lastManeuver g (step t i).2) := by
  cases i with
  | abort now => exact consumeAbort_invT now t g hwf h
  | controlLoops now e m => exact consumeControlLoops_invT now t e m g hwf h
  | entityMonitoringState now msg => exact consumeEMS_invT now t msg g hwf h
  | maneuverControlState now msg => exact consumeMCS_invT now t msg g hwf h
  | vehicleCommand now cmd => exact consumeVC_invT now t cmd g hwf h
  | planControl a b c => exact consumePC_invT t a b c g h
  | tick now => exact task_invT now t g hwf h

/-- C8: in every state reachable from the initial state by processing
well-formed inputs, `maneuver_stime ≥ 0` holds exactly when
`op_mode = MANEUVER`, and in MANEUVER mode `maneuver_type` is the message
id of the most recently dispatched maneuver payload. -/
theorem maneuver_time_type_invariant (s : GState) (h : Reach s) :
    ManInv s := by
  induction h with
  | init cal ents =>
      refine ⟨?_, ?_⟩
      · constructor
        · intro hx
          exact absurd hx (by norm_num [setInitialState])
        · intro hx
          exact absurd hx (by simp [setInitialState])
      · intro hx
        exact absurd hx (by simp [setInitialState])
  | next i hr hwf ih => exact step_invT _ _ i hwf ih

/-- Witness for C8: the initial state is reachable and satisfies the
invariant. -/
theorem maneuver_time_type_invariant_witness :
    ManInv { tk := setInitialState 10 [], ghost := none } :=
  maneuver_time_type_invariant _ (Reach.init 10 [])

end DuneVS
